import Mathlib

/-!
Shallow embedding of the `andyheggs/data-api` command-line weather tool.

The repository holds two near-duplicate Python files:
  * `src/weather.py`  — callee-side disambiguation (`search_city` resolves,
    prints the menu and reads the choice itself, returning one city or None);
  * `src/testing.py`  — caller-side disambiguation (`search_city` returns the
    whole candidate list or None; `main` does the menu and choice loop).

HTTP is modelled by oracles `String → payload` mapping a request URL to the
upstream JSON payload; each embedded operation also reports the list of URLs
it requested, so "issues no HTTP request" is expressible.  User interaction is
modelled by a list of input lines threaded through the functions.  JSON floats
that the code merely passes through (temperatures) are modelled by `Int`;
coordinates, which the code only splices into a URL, are modelled by their
formatted `String` form.
-/

/-- Base URL for the Le Wagon OpenWeather proxy API (both files). -/
def BASE_URI : String := "https://weather.lewagon.com"

/-- One geocoding candidate, per the upstream interface: `name`, `country`,
optional `state`, and coordinates (kept as their URL-formatted text). -/
structure CityCandidate where
  name : String
  country : String
  state : Option String
  lat : String
  lon : String
deriving DecidableEq, Repr

/-- One element of a forecast entry's `weather` array. -/
structure WeatherCond where
  description : String
deriving DecidableEq, Repr

/-- The `main` sub-object of a forecast entry; only `temp_max` is read. -/
structure MainData where
  temp_max : Int
deriving DecidableEq, Repr

/-- One 3-hour forecast interval entry of the upstream `list` array. -/
structure ForecastEntry where
  dt_txt : String
  weather : List WeatherCond
  main : MainData
deriving DecidableEq, Repr

/-- The forecast endpoint's JSON object; `list` may be absent (`none`),
matching `response.get("list", [])` in the sources. -/
structure ForecastResponse where
  list : Option (List ForecastEntry)
deriving DecidableEq, Repr

/-- One reduced daily summary, as appended by `weather_forecast`. -/
structure DailyForecast where
  date : String
  description : String
  temp : Int
deriving DecidableEq, Repr

/-- Hex digit (uppercase), as `urllib.parse.quote` produces. -/
def hexDigit (n : Nat) : Char :=
  if n < 10 then Char.ofNat (48 + n) else Char.ofNat (55 + n)

/-- Percent-encode one UTF-8 byte value, uppercase hex, as
`urllib.parse.quote`. -/
def quoteByte (b : Nat) : String :=
  String.mk ['%', hexDigit (b / 16), hexDigit (b % 16)]

/-- The UTF-8 byte values of one character. -/
def utf8Bytes (c : Char) : List Nat :=
  let n := c.toNat
  if n < 128 then [n]
  else if n < 2048 then [192 + n / 64, 128 + n % 64]
  else if n < 65536 then [224 + n / 4096, 128 + n / 64 % 64, 128 + n % 64]
  else [240 + n / 262144, 128 + n / 4096 % 64, 128 + n / 64 % 64, 128 + n % 64]

/-- Characters `urllib.parse.quote` leaves unescaped with its default
`safe='/'`: unreserved ASCII plus the slash. -/
def quoteSafe (c : Char) : Bool :=
  (c.isAlphanum && c.toNat < 128) || c = '_' || c = '.' || c = '-' || c = '~' || c = '/'

/-- `urllib.parse.quote(query)`: keep safe characters, percent-encode the
UTF-8 bytes of everything else. -/
def urlQuote (s : String) : String :=
  s.data.foldl
    (fun acc c =>
      if quoteSafe c then acc.push c
      else acc ++ (utf8Bytes c).foldl (fun a b => a ++ quoteByte b) "")
    ""

/-- Python `not s.strip()`: true exactly when every character of `s` is
whitespace (the string is empty after stripping both ends). -/
def pyStripEmpty (s : String) : Bool :=
  s.data.all Char.isWhitespace

/-- Python `s.isdigit()` followed by `int(s)`: `some k` exactly on nonempty
all-digit strings, whose decimal value is `k`. -/
def pyParseNat (s : String) : Option Nat :=
  if s.data ≠ [] ∧ s.data.all Char.isDigit then
    some (s.data.foldl (fun n c => 10 * n + (c.toNat - 48)) 0)
  else none

/-- The geocoding request URL built by both files:
`f"{BASE_URI}/geo/1.0/direct?q={urllib.parse.quote(query)}&limit=5"`. -/
def geoUrl (query : String) : String :=
  BASE_URI ++ "/geo/1.0/direct?q=" ++ urlQuote query ++ "&limit=5"

/-- The forecast request URL built by both files:
`f"{BASE_URI}/data/2.5/forecast?lat={lat}&lon={lon}&units=metric"`. -/
def forecastUrl (lat lon : String) : String :=
  BASE_URI ++ "/data/2.5/forecast?lat=" ++ lat ++ "&lon=" ++ lon ++ "&units=metric"

/-- Python `range(start, stop, step)` for a positive step, as a list. -/
def pyRange (start stop step : Nat) : List Nat :=
  if step = 0 then []
  else (List.range ((stop - start + step - 1) / step)).map (fun k => start + step * k)

/-- One step of Python `str.title()`: the Boolean says whether the previous
character was cased (alphabetic); cased characters after a cased one are
lowercased, otherwise uppercased. -/
def pyTitleAux : Bool → List Char → List Char
  | _, [] => []
  | prevCased, c :: cs =>
    let cased := c.isAlpha
    (if cased then (if prevCased then c.toLower else c.toUpper) else c)
      :: pyTitleAux cased cs

/-- Python `str.title()` on the embedded character model. -/
def pyTitle (s : String) : String :=
  String.mk (pyTitleAux false s.data)

/-- Effectful iteration for `Option`: the Python `for` loop appending to
`daily_forecast`, where a raised exception aborts the whole call (`none`). -/
def optionMapM {α β : Type} (f : α → Option β) : List α → Option (List β)
  | [] => some []
  | a :: as =>
    match f a with
    | none => none
    | some b =>
      match optionMapM f as with
      | none => none
      | some bs => some (b :: bs)

/-- The body of `weather_forecast`'s loop for one index: `forecasts[i]`
(fallible indexing), `entry["dt_txt"][:10]`,
`entry["weather"][0]["description"].title()` (fallible head access), and
`entry["main"]["temp_max"]`. -/
def dailyOfIndex (forecasts : List ForecastEntry) (i : Nat) : Option DailyForecast :=
  (forecasts[i]?).bind fun entry =>
    (entry.weather[0]?).map fun w =>
      { date := entry.dt_txt.take 10
        description := pyTitle w.description
        temp := entry.main.temp_max }

/-- The reduction performed by `weather_forecast` (identical in both files)
on an already-fetched payload: `forecasts = response.get("list", [])`, then
`for i in range(0, min(len(forecasts), 40), 8)` appending one summary per
selected index; `none` models a raised `KeyError`/`IndexError`. -/
def weather_forecast_core (response : ForecastResponse) : Option (List DailyForecast) :=
  let forecasts := response.list.getD []
  optionMapM (dailyOfIndex forecasts) (pyRange 0 (min forecasts.length 40) 8)

/-- `weather_forecast(lat, lon)` with the HTTP GET modelled by the oracle
`fc` applied to the constructed URL. -/
def weather_forecast (fc : String → ForecastResponse) (lat lon : String) :
    Option (List DailyForecast) :=
  weather_forecast_core (fc (forecastUrl lat lon))

example :
    weather_forecast_core ⟨some [⟨"2025-01-29 12:00:00", [⟨"light rain"⟩], ⟨7⟩⟩]⟩ =
      some [⟨"2025-01-29", "Light Rain", 7⟩] := by decide

example : weather_forecast_core ⟨none⟩ = some [] := by decide

example : pyRange 0 40 8 = [0, 8, 16, 24, 32] := by decide

example : pyRange 0 5 8 = [0] := by decide

/-- The disambiguation loop shared by both variants (`weather.py` lines
53-61, `testing.py` lines 84-91): read a line; if it `isdigit()` convert to
an integer `k`; if `1 <= k <= len(response)` return `response[k-1]`
(fallible indexing); otherwise print the invalid-choice message and loop.
`pyParseNat` models `isdigit()` followed by `int(...)` (some exactly on
nonempty all-digit strings).  The function also returns the input lines not
yet consumed; exhausting the input (`[]`) models the loop never returning. -/
def chooseLoop (response : List CityCandidate) :
    List String → Option CityCandidate × List String
  | [] => (none, [])
  | line :: rest =>
    match pyParseNat line with
    | some k =>
      if 1 ≤ k ∧ k ≤ response.length then (response[k - 1]?, rest)
      else chooseLoop response rest
    | none => chooseLoop response rest

namespace WeatherPy

/-- `search_city` of `src/weather.py` (callee-side disambiguation): the
result city (or `none`), the input lines left unconsumed, and the list of
request URLs issued.  Follows the source: blank query short-circuits with no
request; empty payload returns `none`; a single match is returned directly;
otherwise the menu loop chooses. -/
def search_city (geo : String → List CityCandidate) (query : String)
    (inputs : List String) : Option CityCandidate × List String × List String :=
  if pyStripEmpty query then (none, inputs, [])
  else
    let response := geo (geoUrl query)
    if response.isEmpty then (none, inputs, [geoUrl query])
    else if response.length = 1 then (response[0]?, inputs, [geoUrl query])
    else
      let r := chooseLoop response inputs
      (r.1, r.2, [geoUrl query])

/-- `main` of `src/weather.py`, reduced to its observable data: the first
input line is the query; `search_city` resolves (consuming further lines in
its loop); on success the chosen city and the forecast fetched at its
coordinates are returned. -/
def main (geo : String → List CityCandidate) (fc : String → ForecastResponse) :
    List String → Option (CityCandidate × Option (List DailyForecast))
  | [] => none
  | query :: rest =>
    match (search_city geo query rest).1 with
    | none => none
    | some city => some (city, weather_forecast fc city.lat city.lon)

end WeatherPy

namespace TestingPy

/-- `search_city` of `src/testing.py` (caller-side): always issues the
geocoding request; returns `none` on an empty payload, otherwise the whole
candidate list as received.  Second component: request URLs issued. -/
def search_city (geo : String → List CityCandidate) (query : String) :
    Option (List CityCandidate) × List String :=
  let response := geo (geoUrl query)
  if response.isEmpty then (none, [geoUrl query])
  else (some response, [geoUrl query])

/-- `main` of `src/testing.py`: query is the first input line; on a
candidate list of length 1 the sole candidate is used directly, otherwise
the inline disambiguation loop consumes further lines; then the forecast is
fetched at the chosen coordinates. -/
def main (geo : String → List CityCandidate) (fc : String → ForecastResponse) :
    List String → Option (CityCandidate × Option (List DailyForecast))
  | [] => none
  | query :: rest =>
    match (search_city geo query).1 with
    | none => none
    | some results =>
      let chosen :=
        if results.length = 1 then (results[0]?, rest)
        else chooseLoop results rest
      match chosen.1 with
      | none => none
      | some city => some (city, weather_forecast fc city.lat city.lon)

end TestingPy

def cParis : CityCandidate :=
  { name := "Paris", country := "FR", state := none, lat := "48.85", lon := "2.35" }

def cParisTX : CityCandidate :=
  { name := "Paris", country := "US", state := some "Texas", lat := "33.66", lon := "-95.55" }

example : chooseLoop [cParis, cParisTX] ["x", "0", "3", "2"] = (some cParisTX, []) := by decide

example : geoUrl "a b" = "https://weather.lewagon.com/geo/1.0/direct?q=a%20b&limit=5" := by decide

theorem optionMapM_length {α β : Type} (f : α → Option β) :
    ∀ {l : List α} {bs : List β}, optionMapM f l = some bs → bs.length = l.length := by
  intro l
  induction l with
  | nil => intro bs h; simp [optionMapM] at h; subst h; rfl
  | cons a as ih =>
    intro bs h
    simp only [optionMapM] at h
    cases hfa : f a with
    | none => rw [hfa] at h; exact absurd h (by simp)
    | some b =>
      rw [hfa] at h
      cases hAs : optionMapM f as with
      | none => rw [hAs] at h; exact absurd h (by simp)
      | some bs2 =>
        rw [hAs] at h
        simp only [Option.some.injEq] at h
        subst h
        simp [ih hAs]

theorem optionMapM_getElem {α β : Type} (f : α → Option β) :
    ∀ {l : List α} {bs : List β}, optionMapM f l = some bs →
      ∀ k : Nat, bs[k]? = l[k]?.bind f := by
  intro l
  induction l with
  | nil =>
    intro bs h k
    simp [optionMapM] at h
    subst h
    simp
  | cons a as ih =>
    intro bs h k
    simp only [optionMapM] at h
    cases hfa : f a with
    | none => rw [hfa] at h; exact absurd h (by simp)
    | some b =>
      rw [hfa] at h
      cases hAs : optionMapM f as with
      | none => rw [hAs] at h; exact absurd h (by simp)
      | some bs2 =>
        rw [hAs] at h
        simp only [Option.some.injEq] at h
        subst h
        cases k with
        | zero => simp [hfa]
        | succ k => simpa using ih hAs k

theorem optionMapM_isSome {α β : Type} (f : α → Option β) :
    ∀ {l : List α}, (∀ a ∈ l, (f a).isSome) → ∃ bs, optionMapM f l = some bs := by
  intro l
  induction l with
  | nil => intro _; exact ⟨[], rfl⟩
  | cons a as ih =>
    intro h
    obtain ⟨b, hb⟩ := Option.isSome_iff_exists.mp (h a (by simp))
    obtain ⟨bs, hbs⟩ := ih (fun x hx => h x (by simp [hx]))
    exact ⟨b :: bs, by simp [optionMapM, hb, hbs]⟩

theorem pyRange_eq_filter :
    ∀ stop < 41, pyRange 0 stop 8 =
      [0, 8, 16, 24, 32].filter (fun i => decide (i < stop)) := by decide

theorem pyRange_length_le (stop : Nat) (h : stop ≤ 40) :
    (pyRange 0 stop 8).length ≤ 5 := by
  rw [pyRange_eq_filter stop (by omega)]
  exact List.length_filter_le _ _

theorem pyRange_mem_lt (stop : Nat) (h : stop ≤ 40) :
    ∀ i ∈ pyRange 0 stop 8, i < stop := by
  intro i hi
  rw [pyRange_eq_filter stop (by omega)] at hi
  exact of_decide_eq_true (List.mem_filter.mp hi).2

theorem pyRange_getElem (stop k : Nat) :
    (pyRange 0 stop 8)[k]? = if 8 * k < stop then some (8 * k) else none := by
  have h8 : ¬ (8 = 0) := by omega
  simp only [pyRange, if_neg h8, List.getElem?_map]
  have hiff : k < (stop - 0 + 8 - 1) / 8 ↔ 8 * k < stop := by omega
  by_cases hk : 8 * k < stop
  · rw [List.getElem?_range (hiff.mpr hk)]
    simp [hk]
  · rw [List.getElem?_len_le (by simpa using fun h => hk (hiff.mp h))]
    simp [hk]

theorem pyRange_length_eq (stop : Nat) (h : stop ≤ 40) :
    (pyRange 0 stop 8).length =
      ([0, 8, 16, 24, 32].filter (fun i => decide (i < stop))).length := by
  rw [pyRange_eq_filter stop (by omega)]

/-- A payload whose entries conform to the upstream interface (section
"external interfaces" of the spec): each interval entry's `weather` array is
nonempty, so `entry["weather"][0]` does not raise. -/
def WellFormedResponse (response : ForecastResponse) : Prop :=
  ∀ e ∈ response.list.getD [], e.weather ≠ []

instance (response : ForecastResponse) : Decidable (WellFormedResponse response) := by
  unfold WellFormedResponse
  infer_instance

theorem dailyOfIndex_isSome (forecasts : List ForecastEntry)
    (hw : ∀ e ∈ forecasts, e.weather ≠ []) (i : Nat) (hi : i < forecasts.length) :
    (dailyOfIndex forecasts i).isSome := by
  rw [dailyOfIndex, List.getElem?_eq_getElem hi]
  have hmem : forecasts[i] ∈ forecasts := List.getElem_mem hi
  cases hwl : forecasts[i].weather with
  | nil => exact absurd hwl (hw _ hmem)
  | cons w ws => simp [hwl]

/-- C1: for every forecast payload whose `list` field contains `L` interval
entries (any `L ≥ 0`, entries conforming to the upstream interface),
`weather_forecast` returns a sequence whose length equals the number of
indices in `{0, 8, 16, 24, 32}` strictly below `min(L, 40)`; the length is
`0` when the list is empty or absent, and never exceeds `5`. -/
theorem C1_forecast_length (response : ForecastResponse)
    (hw : WellFormedResponse response) :
    ∃ ds, weather_forecast_core response = some ds ∧
      ds.length =
        ([0, 8, 16, 24, 32].filter
          (fun i => decide (i < min (response.list.getD []).length 40))).length ∧
      ds.length ≤ 5 ∧
      (response.list.getD [] = [] → ds = []) := by
  have hstop : min (response.list.getD []).length 40 ≤ 40 := min_le_right _ _
  have hsome : ∀ i ∈ pyRange 0 (min (response.list.getD []).length 40) 8,
      (dailyOfIndex (response.list.getD []) i).isSome := by
    intro i hi
    have h1 := pyRange_mem_lt _ hstop i hi
    exact dailyOfIndex_isSome _ hw i (lt_of_lt_of_le h1 (min_le_left _ _))
  obtain ⟨ds, hds⟩ := optionMapM_isSome _ hsome
  have hlen := optionMapM_length _ hds
  refine ⟨ds, by simpa [weather_forecast_core] using hds, ?_, ?_, ?_⟩
  · rw [hlen, pyRange_length_eq _ hstop]
  · rw [hlen]
    exact pyRange_length_le _ hstop
  · intro h
    have hz : ds.length = 0 := by
      rw [hlen, h]
      rfl
    exact List.length_eq_zero.mp hz

/-- C2: each selected interval `i = 8k < min(L, 40)` produces the `k`-th
output entry, whose `date` is the first 10 characters of the interval's
`dt_txt`, whose `description` is the title-cased description of the first
element of its `weather` array, and whose `temp` is its `main.temp_max`;
so the `k`-th output comes from input index `8k` and upstream order is
preserved. -/
theorem C2_entry_content (response : ForecastResponse)
    (hw : WellFormedResponse response)
    (ds : List DailyForecast) (hds : weather_forecast_core response = some ds)
    (k : Nat) (hk : 8 * k < min (response.list.getD []).length 40) :
    ∃ entry w, (response.list.getD [])[8 * k]? = some entry ∧
      entry.weather[0]? = some w ∧
      ds[k]? = some { date := entry.dt_txt.take 10,
                      description := pyTitle w.description,
                      temp := entry.main.temp_max } := by
  have hL : 8 * k < (response.list.getD []).length :=
    lt_of_lt_of_le hk (min_le_left _ _)
  have hget := optionMapM_getElem (dailyOfIndex (response.list.getD []))
    (by simpa [weather_forecast_core] using hds) k
  rw [pyRange_getElem, if_pos hk] at hget
  refine ⟨(response.list.getD [])[8 * k], ?_⟩
  have hmem : (response.list.getD [])[8 * k] ∈ response.list.getD [] :=
    List.getElem_mem hL
  cases hwl : ((response.list.getD [])[8 * k]).weather with
  | nil => exact absurd hwl (hw _ hmem)
  | cons w ws =>
    refine ⟨w, List.getElem?_eq_getElem hL, by simp [hwl], ?_⟩
    rw [hget]
    simp [dailyOfIndex, List.getElem?_eq_getElem hL, hwl]

/-- C7: a forecast response in which the `list` field is absent yields the
empty sequence, not an error. -/
theorem C7_missing_list (fc : String → ForecastResponse) (lat lon : String)
    (h : (fc (forecastUrl lat lon)).list = none) :
    weather_forecast fc lat lon = some [] := by
  unfold weather_forecast weather_forecast_core
  rw [h]
  rfl

/-- C9: two forecast calls with identical coordinates and identical upstream
payload at the resulting URL produce identical output. -/
theorem C9_deterministic (fc1 fc2 : String → ForecastResponse) (lat lon : String)
    (h : fc1 (forecastUrl lat lon) = fc2 (forecastUrl lat lon)) :
    weather_forecast fc1 lat lon = weather_forecast fc2 lat lon := by
  unfold weather_forecast
  rw [h]

/-- C10: every index produced by the stride loop of `weather_forecast` is
strictly below the payload length, so the `forecasts[i]` access is in
bounds and its Option-returning embedding never yields `none`. -/
theorem C10_index_safe (response : ForecastResponse) :
    ∀ i ∈ pyRange 0 (min (response.list.getD []).length 40) 8,
      i < (response.list.getD []).length ∧
        ((response.list.getD [])[i]?).isSome := by
  intro i hi
  have h1 := pyRange_mem_lt _ (min_le_right _ _) i hi
  have h2 := lt_of_lt_of_le h1 (min_le_left (response.list.getD []).length 40)
  exact ⟨h2, by rw [List.getElem?_eq_getElem h2]; rfl⟩

/-- A conforming interval entry for concrete evaluations. -/
def sampleEntry (d : String) (t : Int) : ForecastEntry :=
  { dt_txt := d, weather := [{ description := "clear sky" }], main := { temp_max := t } }

/-- A nine-entry payload: indices 0 and 8 are the selected ones. -/
def sampleResponse : ForecastResponse :=
  ⟨some (sampleEntry "2025-01-29 00:00:00" 5 ::
    (List.replicate 7 (sampleEntry "2025-01-29 03:00:00" 0) ++
      [sampleEntry "2025-01-30 00:00:00" 9]))⟩

theorem C1_forecast_length_witness :
    ∃ ds, weather_forecast_core sampleResponse = some ds ∧
      ds.length =
        ([0, 8, 16, 24, 32].filter
          (fun i => decide (i < min (sampleResponse.list.getD []).length 40))).length ∧
      ds.length ≤ 5 ∧
      (sampleResponse.list.getD [] = [] → ds = []) :=
  C1_forecast_length sampleResponse (by decide)

theorem C2_entry_content_witness :
    ∃ entry w, (sampleResponse.list.getD [])[8 * 1]? = some entry ∧
      entry.weather[0]? = some w ∧
      [⟨"2025-01-29", "Clear Sky", 5⟩,
        (⟨"2025-01-30", "Clear Sky", 9⟩ : DailyForecast)][1]? =
        some { date := entry.dt_txt.take 10,
               description := pyTitle w.description,
               temp := entry.main.temp_max } :=
  C2_entry_content sampleResponse (by decide) _ (by decide) 1 (by decide)

/-- An oracle whose forecast payload always lacks the `list` field. -/
def fcNoList : String → ForecastResponse := fun _ => ⟨none⟩

theorem C7_missing_list_witness :
    weather_forecast fcNoList "48.85" "2.35" = some [] :=
  C7_missing_list fcNoList "48.85" "2.35" rfl

/-- Two distinct forecast oracles that agree on the URL for `(1, 2)`. -/
def fcOracleA : String → ForecastResponse := fun _ => ⟨some []⟩

/-- A second oracle, differing from `fcOracleA` elsewhere. -/
def fcOracleB : String → ForecastResponse :=
  fun s => if s = "other" then ⟨none⟩ else ⟨some []⟩

theorem C9_deterministic_witness :
    weather_forecast fcOracleA "1" "2" = weather_forecast fcOracleB "1" "2" :=
  C9_deterministic fcOracleA fcOracleB "1" "2" (by decide)

theorem C10_index_safe_witness :
    8 < (sampleResponse.list.getD []).length ∧
      ((sampleResponse.list.getD [])[8]?).isSome :=
  C10_index_safe sampleResponse 8 (by decide)

theorem chooseLoop_nil (response : List CityCandidate) :
    chooseLoop response [] = (none, []) := rfl

theorem chooseLoop_cons_some (response : List CityCandidate) (line : String)
    (rest : List String) (k : Nat) (hp : pyParseNat line = some k) :
    chooseLoop response (line :: rest) =
      if 1 ≤ k ∧ k ≤ response.length then (response[k - 1]?, rest)
      else chooseLoop response rest := by
  rw [chooseLoop, hp]

theorem chooseLoop_cons_none (response : List CityCandidate) (line : String)
    (rest : List String) (hp : pyParseNat line = none) :
    chooseLoop response (line :: rest) = chooseLoop response rest := by
  rw [chooseLoop, hp]

theorem testing_search_city_eq (geo : String → List CityCandidate) (query : String) :
    TestingPy.search_city geo query =
      if (geo (geoUrl query)).isEmpty then (none, [geoUrl query])
      else (some (geo (geoUrl query)), [geoUrl query]) := rfl

/-- C3: for a non-empty query, the caller-side `search_city` returns `none`
exactly when the upstream geocoding payload is empty; otherwise it returns
the payload as received (same list, hence same order and length, and at
most 5 entries whenever the upstream honours the requested cap), and the
one request it issues asks for at most 5 matches (`&limit=5`). -/
theorem C3_resolve (geo : String → List CityCandidate) (query : String)
    (hq : query ≠ "") :
    ((TestingPy.search_city geo query).1 = none ↔ geo (geoUrl query) = []) ∧
    (∀ l, (TestingPy.search_city geo query).1 = some l →
      l = geo (geoUrl query) ∧ l.length = (geo (geoUrl query)).length ∧
        ((geo (geoUrl query)).length ≤ 5 → l.length ≤ 5)) ∧
    (∃ p, (TestingPy.search_city geo query).2 = [p ++ "&limit=5"]) := by
  rw [testing_search_city_eq]
  by_cases h : (geo (geoUrl query)).isEmpty = true
  · have h' := List.isEmpty_iff.mp h
    rw [if_pos h]
    refine ⟨⟨fun _ => h', fun _ => rfl⟩, ?_,
      BASE_URI ++ "/geo/1.0/direct?q=" ++ urlQuote query, rfl⟩
    intro l hl
    exact absurd hl (by simp)
  · rw [if_neg h]
    refine ⟨⟨fun hn => absurd hn (by simp), fun he => absurd (List.isEmpty_iff.mpr he) h⟩,
      ?_, BASE_URI ++ "/geo/1.0/direct?q=" ++ urlQuote query, rfl⟩
    intro l hl
    obtain rfl : geo (geoUrl query) = l := by simpa using hl
    exact ⟨rfl, rfl, fun hc => hc⟩

/-- A two-candidate geocoding oracle (the Paris scenario of the spec). -/
def geoTwo : String → List CityCandidate := fun _ => [cParis, cParisTX]

theorem C3_resolve_witness :
    ((TestingPy.search_city geoTwo "Paris").1 = none ↔ geoTwo (geoUrl "Paris") = []) ∧
    (∀ l, (TestingPy.search_city geoTwo "Paris").1 = some l →
      l = geoTwo (geoUrl "Paris") ∧ l.length = (geoTwo (geoUrl "Paris")).length ∧
        ((geoTwo (geoUrl "Paris")).length ≤ 5 → l.length ≤ 5)) ∧
    (∃ p, (TestingPy.search_city geoTwo "Paris").2 = [p ++ "&limit=5"]) :=
  C3_resolve geoTwo "Paris" (by decide)

/-- C4: with more than one candidate, the choice loop returns candidate `k`
(1-based) exactly when the supplied line parses as an integer `k` with
`1 ≤ k ≤ N`: a valid first line returns that candidate at once; any run of
invalid lines (non-numeric or out of range) is skipped, however long, so
the loop keeps going until a valid integer arrives; and a candidate is only
ever returned on the strength of such a valid line. -/
theorem C4_choice_loop (cands : List CityCandidate) (hN : 1 < cands.length) :
    (∀ line rest k, pyParseNat line = some k → 1 ≤ k → k ≤ cands.length →
      ∃ c, cands[k - 1]? = some c ∧ chooseLoop cands (line :: rest) = (some c, rest)) ∧
    (∀ bad rest, (∀ line ∈ bad, ∀ k, pyParseNat line = some k →
        ¬(1 ≤ k ∧ k ≤ cands.length)) →
      chooseLoop cands (bad ++ rest) = chooseLoop cands rest) ∧
    (∀ inputs c leftover, chooseLoop cands inputs = (some c, leftover) →
      ∃ line k, line ∈ inputs ∧ pyParseNat line = some k ∧ 1 ≤ k ∧
        k ≤ cands.length ∧ cands[k - 1]? = some c) := by
  refine ⟨?_, ?_, ?_⟩
  · intro line rest k hp h1 h2
    have hlt : k - 1 < cands.length := by omega
    refine ⟨cands[k - 1], List.getElem?_eq_getElem hlt, ?_⟩
    rw [chooseLoop_cons_some cands line rest k hp, if_pos ⟨h1, h2⟩,
      List.getElem?_eq_getElem hlt]
  · intro bad rest hbad
    induction bad with
    | nil => rfl
    | cons line bs ih =>
      have hrest : ∀ l ∈ bs, ∀ k, pyParseNat l = some k →
          ¬(1 ≤ k ∧ k ≤ cands.length) := fun l hl => hbad l (by simp [hl])
      rw [List.cons_append]
      cases hp : pyParseNat line with
      | none => rw [chooseLoop_cons_none cands line (bs ++ rest) hp]; exact ih hrest
      | some k =>
        rw [chooseLoop_cons_some cands line (bs ++ rest) k hp,
          if_neg (hbad line (by simp) k hp)]
        exact ih hrest
  · intro inputs
    induction inputs with
    | nil =>
      intro c leftover h
      have h1 : (none : Option CityCandidate) = some c := congrArg Prod.fst h
      exact absurd h1 (by simp)
    | cons line rest ih =>
      intro c leftover h
      cases hp : pyParseNat line with
      | none =>
        rw [chooseLoop_cons_none cands line rest hp] at h
        obtain ⟨l, k, hl, hrs⟩ := ih c leftover h
        exact ⟨l, k, by simp [hl], hrs⟩
      | some k =>
        rw [chooseLoop_cons_some cands line rest k hp] at h
        by_cases hv : 1 ≤ k ∧ k ≤ cands.length
        · rw [if_pos hv] at h
          have hc : cands[k - 1]? = some c := congrArg Prod.fst h
          exact ⟨line, k, by simp, hp, hv.1, hv.2, hc⟩
        · rw [if_neg hv] at h
          obtain ⟨l, k2, hl, hrs⟩ := ih c leftover h
          exact ⟨l, k2, by simp [hl], hrs⟩

theorem C4_choice_loop_witness :
    (∀ line rest k, pyParseNat line = some k → 1 ≤ k → k ≤ (geoTwo "q").length →
      ∃ c, (geoTwo "q")[k - 1]? = some c ∧
        chooseLoop (geoTwo "q") (line :: rest) = (some c, rest)) ∧
    (∀ bad rest, (∀ line ∈ bad, ∀ k, pyParseNat line = some k →
        ¬(1 ≤ k ∧ k ≤ (geoTwo "q").length)) →
      chooseLoop (geoTwo "q") (bad ++ rest) = chooseLoop (geoTwo "q") rest) ∧
    (∀ inputs c leftover, chooseLoop (geoTwo "q") inputs = (some c, leftover) →
      ∃ line k, line ∈ inputs ∧ pyParseNat line = some k ∧ 1 ≤ k ∧
        k ≤ (geoTwo "q").length ∧ (geoTwo "q")[k - 1]? = some c) :=
  C4_choice_loop (geoTwo "q") (by decide)

theorem weather_search_city_eq (geo : String → List CityCandidate)
    (query : String) (inputs : List String) :
    WeatherPy.search_city geo query inputs =
      if pyStripEmpty query then (none, inputs, [])
      else if (geo (geoUrl query)).isEmpty then (none, inputs, [geoUrl query])
      else if (geo (geoUrl query)).length = 1 then
        ((geo (geoUrl query))[0]?, inputs, [geoUrl query])
      else ((chooseLoop (geo (geoUrl query)) inputs).1,
        (chooseLoop (geo (geoUrl query)) inputs).2, [geoUrl query]) := rfl

theorem weather_main_cons (geo : String → List CityCandidate)
    (fc : String → ForecastResponse) (query : String) (rest : List String) :
    WeatherPy.main geo fc (query :: rest) =
      match (WeatherPy.search_city geo query rest).1 with
      | none => none
      | some city => some (city, weather_forecast fc city.lat city.lon) := rfl

theorem testing_main_cons (geo : String → List CityCandidate)
    (fc : String → ForecastResponse) (query : String) (rest : List String) :
    TestingPy.main geo fc (query :: rest) =
      match (TestingPy.search_city geo query).1 with
      | none => none
      | some results =>
        match (if results.length = 1 then (results[0]?, rest)
            else chooseLoop results rest).1 with
        | none => none
        | some city => some (city, weather_forecast fc city.lat city.lon) := rfl

/-- C6: for a query that is blank after stripping, the callee-side variant
returns `none` at once and issues no HTTP request, while the caller-side
variant issues the geocoding request regardless. -/
theorem C6_blank_query (geo : String → List CityCandidate) (query : String)
    (inputs : List String) (hq : pyStripEmpty query = true) :
    WeatherPy.search_city geo query inputs = (none, inputs, []) ∧
    (TestingPy.search_city geo query).2 = [geoUrl query] := by
  constructor
  · rw [weather_search_city_eq, if_pos hq]
  · rw [testing_search_city_eq]
    by_cases h : (geo (geoUrl query)).isEmpty = true
    · rw [if_pos h]
    · rw [if_neg h]

theorem C6_blank_query_witness :
    WeatherPy.search_city geoTwo " " [] = (none, [], []) ∧
    (TestingPy.search_city geoTwo " ").2 = [geoUrl " "] :=
  C6_blank_query geoTwo " " [] (by decide)

/-- C8: when the geocoding payload holds exactly one candidate and the
query is not blank, the callee-side `search_city` returns that sole
candidate with the input stream untouched (no disambiguation prompt), and
the caller-side `main` likewise uses it directly, its result not depending
on any further input lines. -/
theorem C8_single_candidate (geo : String → List CityCandidate)
    (fc : String → ForecastResponse) (c : CityCandidate) (query : String)
    (inputs : List String) (hg : geo (geoUrl query) = [c])
    (hq : pyStripEmpty query = false) :
    WeatherPy.search_city geo query inputs = (some c, inputs, [geoUrl query]) ∧
    TestingPy.main geo fc (query :: inputs) =
      some (c, weather_forecast fc c.lat c.lon) := by
  constructor
  · rw [weather_search_city_eq, if_neg (by simp [hq]), hg]
    rfl
  · rw [testing_main_cons, testing_search_city_eq, hg]
    rfl

/-- A one-candidate geocoding oracle. -/
def geoOne : String → List CityCandidate := fun _ => [cParis]

theorem C8_single_candidate_witness :
    WeatherPy.search_city geoOne "Paris" [] = (some cParis, [], [geoUrl "Paris"]) ∧
    TestingPy.main geoOne fcNoList ["Paris"] =
      some (cParis, weather_forecast fcNoList cParis.lat cParis.lon) :=
  C8_single_candidate geoOne fcNoList cParis "Paris" [] rfl (by decide)

/-- C5 as stated is refuted by a blank query: the callee-side variant
short-circuits to no city, while the caller-side variant issues the request
and, when a candidate comes back, selects it and produces a forecast. -/
theorem C5_counterexample :
    TestingPy.main geoOne fcNoList [" "] ≠ WeatherPy.main geoOne fcNoList [" "] := by
  decide

/-- C5 (amended): for every input sequence whose query line is non-blank
after stripping, identical input lines and identical upstream oracles make
the two variants select the same candidate and produce the same forecast
output. -/
theorem C5_equivalence (geo : String → List CityCandidate)
    (fc : String → ForecastResponse) (query : String) (rest : List String)
    (hq : pyStripEmpty query = false) :
    TestingPy.main geo fc (query :: rest) = WeatherPy.main geo fc (query :: rest) := by
  have hq' : ¬ (pyStripEmpty query = true) := by
    rw [hq]
    exact Bool.false_ne_true
  rw [testing_main_cons, weather_main_cons, testing_search_city_eq,
    weather_search_city_eq, if_neg hq']
  cases hre : geo (geoUrl query) with
  | nil => rfl
  | cons c cs =>
    cases cs with
    | nil => rfl
    | cons c2 cs2 =>
      show (match (chooseLoop (c :: c2 :: cs2) rest).1 with
          | none => none
          | some city => some (city, weather_forecast fc city.lat city.lon)) =
        (match (chooseLoop (c :: c2 :: cs2) rest).1 with
          | none => none
          | some city => some (city, weather_forecast fc city.lat city.lon))
      rfl

theorem C5_equivalence_witness :
    TestingPy.main geoTwo fcNoList ["Paris", "2"] =
      WeatherPy.main geoTwo fcNoList ["Paris", "2"] :=
  C5_equivalence geoTwo fcNoList "Paris" ["2"] (by decide)
